import Mathlib

/-!
Shallow embedding of the TekusFrontend repository (a provider/service
management web frontend) and verification of its specification claims.

The embedding translates, from the TypeScript sources:
  * `lib/types.ts` — the domain record types,
  * `lib/api.ts` — the axios request/response interceptors and `authService`,
  * `app/providers/page.tsx` — the providers list page (country-name lookup,
    paginated fetch, pagination handlers),
  * `app/providers/[id]/page.tsx` — the edit-provider and new-provider form
    pages (form-array state, country dropdown, submit error handling),
  * the summary dashboard page (`getCountryName`, `transformDataForChart`,
    sequential fetch).

JavaScript strings are modelled as Lean `String`s with explicit ASCII
case-mapping and whitespace-trimming helpers; JavaScript `number` counts and
page numbers are modelled as `Int`; `localStorage` is modelled as a partial
map `String → Option String`.
-/

/-- Model of JavaScript `String.prototype.toUpperCase` (ASCII case mapping,
which covers the country codes and names this frontend handles), applied
character by character. -/
def jsToUpper (s : String) : String := String.mk (s.data.map Char.toUpper)

/-- Model of JavaScript `String.prototype.toLowerCase` (ASCII case mapping). -/
def jsToLower (s : String) : String := String.mk (s.data.map Char.toLower)

/-- Model of JavaScript `String.prototype.trim`: drop leading and trailing
whitespace characters. -/
def jsTrim (s : String) : String :=
  String.mk (((s.data.dropWhile Char.isWhitespace).reverse.dropWhile
    Char.isWhitespace).reverse)

/-- Predicate `leadMatch sub l`: `sub` is an initial segment of `l`. -/
def leadMatch : List Char → List Char → Bool
  | [], _ => true
  | _ :: _, [] => false
  | a :: as, b :: bs => a == b && leadMatch as bs

/-- Predicate `hasSubstr sub l`: `sub` occurs contiguously inside `l`. -/
def hasSubstr (sub : List Char) : List Char → Bool
  | [] => leadMatch sub []
  | c :: t => leadMatch sub (c :: t) || hasSubstr sub t

/-- Model of JavaScript `String.prototype.includes`. -/
def jsIncludes (s sub : String) : Bool := hasSubstr sub.data s.data

/-- From `lib/types.ts` lines 49-53: the `Country` record. -/
structure Country where
  code : String
  name : String
  region : String
deriving DecidableEq

/-- From `lib/types.ts` lines 24-28: the `ServiceCountry` record. -/
structure ServiceCountry where
  id : String
  serviceId : String
  countryCode : String
deriving DecidableEq

/-- From `lib/types.ts` lines 13-22: the `Service` record (JS `number` hourly rate
modelled as `Int`; ISO date strings kept as `String`). -/
structure Service where
  id : String
  providerId : String
  name : String
  hourlyRate : Int
  isDeleted : Bool
  deletedAt : Option String
  createdAt : String
  countries : List ServiceCountry
deriving DecidableEq

/-- From `lib/types.ts` lines 30-38: the `CustomAttribute` record. -/
structure CustomAttribute where
  id : String
  providerId : String
  key : String
  value : String
  isDeleted : Bool
  deletedAt : Option String
  createdAt : String
deriving DecidableEq

/-- From `lib/types.ts` lines 1-11: the `Provider` record. -/
structure Provider where
  id : String
  nit : String
  name : String
  email : String
  createdAt : String
  isDeleted : Bool
  deletedAt : Option String
  services : List Service
  customAttributes : List CustomAttribute
deriving DecidableEq

/-- From `lib/types.ts` lines 40-47: the `PaginatedResponse<T>` record. -/
structure PaginatedResponse (α : Type) where
  items : List α
  pageNumber : Int
  totalPages : Int
  totalCount : Int
  hasPreviousPage : Bool
  hasNextPage : Bool
deriving DecidableEq

namespace SummaryPage

/-- Summary page `getCountryName` (summary page source lines 93-97):
normalize the input code by `trim().toUpperCase()`, then find the first
fetched country whose `code.toUpperCase()` equals the normalized code; on a
match return its `name`, otherwise return the raw input `code`. -/
def getCountryName (countries : List Country) (code : String) : String :=
  let normalizedCode := jsToUpper (jsTrim code)
  match countries.find? (fun c => jsToUpper c.code == normalizedCode) with
  | some country => country.name
  | none => code

/-- One element of the list `transformDataForChart` builds (summary page
source lines 103-107): `{ country, code, count }`. -/
structure ChartEntry where
  country : String
  code : String
  count : Int
deriving DecidableEq

/-- The comparator `(a, b) => b.count - a.count` of the summary page's
`.sort` call, as an ordering relation: `a` precedes `b` when
`b.count ≤ a.count` (descending count). -/
def countGe (a b : ChartEntry) : Prop := b.count ≤ a.count

instance : DecidableRel countGe := fun a b => Int.decLe b.count a.count

instance : IsTotal ChartEntry countGe := ⟨fun a b => Int.le_total b.count a.count⟩

instance : IsTrans ChartEntry countGe := ⟨fun _ _ _ hab hbc => le_trans hbc hab⟩

/-- The map step of `transformDataForChart`: a `(code, count)` entry of the
record becomes `{ country: getCountryName(code), code, count }`. -/
def chartEntryOf (countries : List Country) (p : String × Int) : ChartEntry :=
  { country := getCountryName countries p.1, code := p.1, count := p.2 }

/-- Summary page `transformDataForChart` (summary page source lines 100-108):
`undefined` input yields `[]`; otherwise map each `(code, count)` entry of the
record to a chart entry and sort by count descending (ECMAScript `sort` is a
stable sort consistent with the comparator; modelled by stable insertion
sort under `countGe`). The record's entries are modelled as the association
list `Object.entries` yields. -/
def transformDataForChart (countries : List Country)
    (data : Option (List (String × Int))) : List ChartEntry :=
  match data with
  | none => []
  | some entries => List.insertionSort countGe (entries.map (chartEntryOf countries))

end SummaryPage

namespace ProvidersPage

/-- Providers list page `getCountryName` (`app/providers/page.tsx` lines
20-24): reassign the input to `countryCode.toUpperCase().trim()`, find the
first country with `c.code == countryCode` (the stored code is NOT
case-normalized), and return its `name`, else the (normalized) code. -/
def getCountryName (countries : List Country) (countryCode : String) : String :=
  let countryCode := jsTrim (jsToUpper countryCode)
  match countries.find? (fun c => c.code == countryCode) with
  | some country => country.name
  | none => countryCode

end ProvidersPage

/-! ## `lib/api.ts`: storage, interceptors, auth service -/

/-- Browser `localStorage`, modelled as a partial map from keys to stored
string values (`getItem` returns `null`, here `none`, for an absent key). -/
abbrev Storage : Type := String → Option String

/-- JavaScript truthiness of a `string | null` value: `null` and the empty
string are falsy, every other string is truthy. -/
def jsTruthy : Option String → Bool
  | none => false
  | some s => !(s == "")

/-- Look a header up in a request's header list (axios `config.headers`). -/
def getHeader (headers : List (String × String)) (k : String) : Option String :=
  (headers.find? (fun h => h.1 == k)).map Prod.snd

/-- Assignment `config.headers.Authorization = v`: replace any existing binding of the
key and bind it to `v`. -/
def setHeader (headers : List (String × String)) (k v : String) :
    List (String × String) :=
  headers.filter (fun h => !(h.1 == k)) ++ [(k, v)]

/-- From `lib/api.ts` lines 12-21, the request interceptor: read
`localStorage.getItem('auth_token')`; `if (token)` — i.e. when the token is
neither `null` nor the empty string — set the `Authorization` header to
`'Bearer ' + token`, otherwise return the config unchanged. -/
def requestInterceptor (store : Storage) (headers : List (String × String)) :
    List (String × String) :=
  match store "auth_token" with
  | some token =>
      if token == "" then headers
      else setHeader headers "Authorization" ("Bearer " ++ token)
  | none => headers

/-- A JavaScript error reaching a `catch` block: the HTTP status of
`error.response` when a response exists, and `error.response?.data?.message`
when the server sent a message field. -/
structure JsError where
  status : Option Int
  serverMessage : Option String
deriving DecidableEq

/-- The observable effect of the response error interceptor: whether the
stored token was removed, and where the browser was redirected. -/
structure InterceptorEffect where
  tokenRemoved : Bool
  redirectedTo : Option String
deriving DecidableEq

/-- From `lib/api.ts` lines 24-34, the response error interceptor: when
`error.response && error.response.status === 401`, remove `auth_token` from
storage and set `window.location.href = '/login'`; in every case the error
is re-rejected (no retry). -/
def responseErrorInterceptor (e : JsError) : InterceptorEffect :=
  if e.status == some 401 then
    { tokenRemoved := true, redirectedTo := some "/login" }
  else
    { tokenRemoved := false, redirectedTo := none }

/-- The kinds of `localStorage` operations appearing in the source. -/
inductive StorageOpKind
  | read
  | write
  | remove
deriving DecidableEq

/-- One `localStorage` call site: its kind, the key it touches, and where in
the source it occurs. -/
structure StorageOp where
  kind : StorageOpKind
  key : String
  site : String
deriving DecidableEq

/-- Every `localStorage`/`sessionStorage` call site in the repository
(`lib/api.ts` is the only file touching browser storage; all five sites use
the literal key `'auth_token'`). -/
def storageOps : List StorageOp :=
  [ { kind := .read, key := "auth_token", site := "api request interceptor (api.ts:14)" },
    { kind := .remove, key := "auth_token", site := "api response interceptor 401 handler (api.ts:29)" },
    { kind := .write, key := "auth_token", site := "authService.login (api.ts:43)" },
    { kind := .remove, key := "auth_token", site := "authService.logout (api.ts:55)" },
    { kind := .read, key := "auth_token", site := "authService.isAuthenticated (api.ts:60)" } ]

/-! ## The HTTP requests issued by the frontend -/

/-- HTTP method of a request the frontend issues. -/
inductive Method
  | get
  | post
  | put
deriving DecidableEq

/-- A backend request as issued through the shared axios client: method and
path (relative to the client's `baseURL`). -/
structure Request where
  method : Method
  path : String
deriving DecidableEq

/-- From `lib/api.ts` line 40: `api.post('/Auth/login', ...)`. -/
def loginRequest : Request := { method := .post, path := "/Auth/login" }

/-- From `app/providers/page.tsx` line 29: `api.get('/Provider', { params })`
(the paginated provider list). -/
def providerListRequest : Request := { method := .get, path := "/Provider" }

/-- The call `api.get('/Country')` — issued by the providers list page (line 42), the
edit page (line 122), the new-provider page (line 547 of the concatenated
form source) and the summary page (line 79). -/
def countriesRequest : Request := { method := .get, path := "/Country" }

/-- Summary page line 75: `api.get('/Summary')`. -/
def summaryRequest : Request := { method := .get, path := "/Summary" }

/-- From `app/providers/[id]/page.tsx` line 82:
`api.get('/Provider/' + providerId)`. -/
def getProviderRequest (id : String) : Request :=
  { method := .get, path := "/Provider/" ++ id }

/-- From `app/providers/[id]/page.tsx` line 139:
`api.put('/Provider/' + providerId, ...)` (the update operation). -/
def updateProviderRequest (id : String) : Request :=
  { method := .put, path := "/Provider/" ++ id }

/-- New-provider page: `api.post('/Provider/with-details', data)` (the
create operation). -/
def createProviderRequest : Request :=
  { method := .post, path := "/Provider/with-details" }

/-- All request call sites of the frontend, for a given provider id routed
to the edit page. -/
def frontendRequests (id : String) : List Request :=
  [ loginRequest, providerListRequest, countriesRequest, summaryRequest,
    getProviderRequest id, updateProviderRequest id, createProviderRequest ]

/-! ## Error handling at each call site -/

/-- JavaScript `x || fallback` on `error.response?.data?.message`: the
fallback is used when the chain yields `undefined` or a falsy (empty)
string. -/
def jsOrString (o : Option String) (fallback : String) : String :=
  match o with
  | some m => if m == "" then fallback else m
  | none => fallback

namespace SummaryPage

/-- Summary page lines 81-84: the catch block logs and sets a fixed error
message, ignoring the error's content. -/
def fetchErrorMessage (_e : JsError) : String :=
  "Failed to load summary data. Please try again later."

end SummaryPage

namespace ProvidersPage

/-- From `app/providers/page.tsx` lines 33-37 and 44-48: both catch blocks on the
providers list page only `console.error` the error; no error state exists on
this page, so nothing is surfaced to the user. -/
def fetchErrorSurfaced (_e : JsError) : Option String := none

end ProvidersPage

namespace EditProviderPage

/-- From `app/providers/[id]/page.tsx` lines 106-108: the provider-fetch catch
block sets a fixed message. -/
def fetchErrorMessage (_e : JsError) : String := "Error loading provider data"

/-- From `app/providers/[id]/page.tsx` line 157: the submit catch block sets
`error.response?.data?.message || 'Failed to update provider'`. -/
def submitErrorMessage (e : JsError) : String :=
  jsOrString e.serverMessage "Failed to update provider"

end EditProviderPage

namespace NewProviderPage

/-- New-provider page countries-fetch catch block: fixed message. -/
def fetchCountriesErrorMessage (_e : JsError) : String :=
  "Failed to load countries. Please try again."

/-- New-provider page submit catch block:
`error.response?.data?.message || 'Failed to create provider'`. -/
def submitErrorMessage (e : JsError) : String :=
  jsOrString e.serverMessage "Failed to create provider"

end NewProviderPage

/-! ## Network event traces (outstanding-request accounting)

An async handler is modelled by the trace of request starts and completions
it produces. Per JavaScript event-loop semantics an `async` function runs
synchronously up to its first `await`, so a call of an `async` fetch helper
without `await` initiates its request before control returns. -/

/-- A network event: a request to `path` starts, or its response completes. -/
inductive NetEvent
  | start (path : String)
  | finish (path : String)
deriving DecidableEq

/-- Number of requests outstanding after a list of events: each start adds
one, each completion removes one (running count, processed in order). -/
def outstanding (t : List NetEvent) : Nat :=
  t.foldl (fun n e => match e with | .start _ => n + 1 | .finish _ => n - 1) 0

/-- Requests outstanding after the first `n` events of a trace. -/
def outstandingAt (t : List NetEvent) (n : Nat) : Nat :=
  outstanding (t.take n)

/-- Summary page `fetchData` (lines 71-87): `await api.get('/Summary')`,
then — only after the summary response — `await api.get('/Country')`. The
awaits make the trace strictly sequential. -/
def summaryFetchDataTrace : List NetEvent :=
  [ .start "/Summary", .finish "/Summary", .start "/Country", .finish "/Country" ]

/-- Providers list page effect body (`app/providers/page.tsx` lines 25-53):
it invokes `fetchCountries()` and then `fetchProviders()` WITHOUT awaiting
either, so `GET /Country` and `GET /Provider` are both initiated before
either response is processed. Completions are modelled in issue order; the
two-requests-outstanding point after the two synchronous starts is reached
regardless of the completion order. -/
def providersEffectTrace : List NetEvent :=
  [ .start "/Country", .start "/Provider", .finish "/Country", .finish "/Provider" ]

/-! ## Providers list pagination (`app/providers/page.tsx`) -/

namespace ProvidersPage

/-- Lines 29-31: the query parameters of every provider-list request,
`{ pageNumber: currentPage, pageSize: 2 }`. -/
def fetchProvidersParams (currentPage : Int) : List (String × Int) :=
  [("pageNumber", currentPage), ("pageSize", 2)]

/-- Lines 55-57: `handlePageChange(newPage)` sets `currentPage` to
`newPage`. -/
def handlePageChange (newPage : Int) (_currentPage : Int) : Int := newPage

/-- Line 155: the Previous button's click handler,
`handlePageChange(currentPage - 1)`. -/
def clickPrevious (currentPage : Int) : Int :=
  handlePageChange (currentPage - 1) currentPage

/-- Line 167: the Next button's click handler,
`handlePageChange(currentPage + 1)`. -/
def clickNext (currentPage : Int) : Int :=
  handlePageChange (currentPage + 1) currentPage

/-- Line 156: `disabled={!providerData.hasPreviousPage}`. -/
def previousDisabled (pd : PaginatedResponse Provider) : Bool :=
  !pd.hasPreviousPage

/-- Line 168: `disabled={!providerData.hasNextPage}`. -/
def nextDisabled (pd : PaginatedResponse Provider) : Bool :=
  !pd.hasNextPage

end ProvidersPage

/-! ## Provider form state (`app/providers/[id]/page.tsx`, both components) -/

/-- A row of the `services` field array (`ServiceSchema`): name, hourly
rate, selected country codes, and — on the edit page — the optional id of an
existing service. -/
structure ServiceForm where
  name : String
  hourlyRate : Int
  countryCodes : List String
  id : Option String
deriving DecidableEq

/-- A row of the `attributes` field array (`AttributeSchema`). -/
structure AttributeForm where
  key : String
  value : String
  id : Option String
deriving DecidableEq

/-- The part of the form state the field-array claims are about: the two
`useFieldArray` arrays. -/
structure ProviderFormState where
  services : List ServiceForm
  attributes : List AttributeForm
deriving DecidableEq

/-- The blank service row `{ name: '', hourlyRate: 0, countryCodes: [] }`
used in `defaultValues` and by the Add Service button of both forms. -/
def blankService : ServiceForm :=
  { name := "", hourlyRate := 0, countryCodes := [], id := none }

/-- The blank attribute row `{ key: '', value: '' }` used in `defaultValues`
and by the Add Attribute button of both forms. -/
def blankAttribute : AttributeForm :=
  { key := "", value := "", id := none }

/-- The `defaultValues` of both `useForm` calls: exactly one blank service row
and one blank attribute row. -/
def initialFormState : ProviderFormState :=
  { services := [blankService], attributes := [blankAttribute] }

/-- The field-array editing actions available on the new-provider form. The
Remove buttons exist in the rendered page only when the corresponding array
has more than one row, so a remove event outside that guard cannot occur and
is modelled as a no-op. -/
inductive NewFormEvent
  | addService
  | removeService (i : Nat)
  | addAttribute
  | removeAttribute (i : Nat)
deriving DecidableEq

/-- The actions available on the edit-provider form: the same field-array
edits, plus `reset(formData)` after the provider fetch succeeds. -/
inductive EditFormEvent
  | addService
  | removeService (i : Nat)
  | addAttribute
  | removeAttribute (i : Nat)
  | resetFromProvider (p : Provider)
deriving DecidableEq

/-- The `formData` built from a fetched provider (edit page lines 86-102)
and passed to `reset`: each fetched service and custom attribute becomes one
form row. -/
def formDataOfProvider (p : Provider) : ProviderFormState :=
  { services := p.services.map (fun s =>
      { name := s.name, hourlyRate := s.hourlyRate,
        countryCodes := s.countries.map ServiceCountry.countryCode,
        id := some s.id }),
    attributes := p.customAttributes.map (fun a =>
      { key := a.key, value := a.value, id := some a.id }) }

/-- One step of the new-provider form: `append` adds a blank row at the end;
`remove(i)` deletes row `i` and is available only behind the
`fields.length > 1` render guard. -/
def stepNew (st : ProviderFormState) : NewFormEvent → ProviderFormState
  | .addService =>
      { st with services := st.services ++ [blankService] }
  | .removeService i =>
      if 1 < st.services.length then { st with services := st.services.eraseIdx i } else st
  | .addAttribute =>
      { st with attributes := st.attributes ++ [blankAttribute] }
  | .removeAttribute i =>
      if 1 < st.attributes.length then { st with attributes := st.attributes.eraseIdx i } else st

/-- One step of the edit-provider form: like `stepNew`, plus
`reset(formData)` replacing both arrays with the fetched provider's rows. -/
def stepEdit (st : ProviderFormState) : EditFormEvent → ProviderFormState
  | .addService =>
      { st with services := st.services ++ [blankService] }
  | .removeService i =>
      if 1 < st.services.length then { st with services := st.services.eraseIdx i } else st
  | .addAttribute =>
      { st with attributes := st.attributes ++ [blankAttribute] }
  | .removeAttribute i =>
      if 1 < st.attributes.length then { st with attributes := st.attributes.eraseIdx i } else st
  | .resetFromProvider p => formDataOfProvider p

/-- The invariant claimed of the form arrays: each holds at least one row. -/
def hasRows (st : ProviderFormState) : Prop :=
  1 ≤ st.services.length ∧ 1 ≤ st.attributes.length

instance (st : ProviderFormState) : Decidable (hasRows st) := instDecidableAnd

/-- A reset event's payload has at least one service and one attribute;
non-reset events satisfy this vacuously. -/
def resetPayloadOk : EditFormEvent → Prop
  | .resetFromProvider p => 1 ≤ p.services.length ∧ 1 ≤ p.customAttributes.length
  | _ => True

instance : DecidablePred resetPayloadOk := fun e =>
  match e with
  | .resetFromProvider _ => instDecidableAnd
  | .addService => inferInstanceAs (Decidable True)
  | .removeService _ => inferInstanceAs (Decidable True)
  | .addAttribute => inferInstanceAs (Decidable True)
  | .removeAttribute _ => inferInstanceAs (Decidable True)

/-! ## The country dropdown of both provider forms -/

/-- The dropdown contents of the country picker, identical in the edit form
(lines 325-331 and 383-396) and the new form: filter the fetched countries
by the search term when it is truthy (non-empty), then skip — `return null`
— every country whose `code` is already in the service's selected
`countryCodes`. -/
def offeredCountries (countries : List Country) (searchTerm : String)
    (selected : List String) : List Country :=
  let filtered :=
    if searchTerm == "" then countries
    else countries.filter (fun c => jsIncludes (jsToLower c.name) (jsToLower searchTerm))
  filtered.filter (fun c => !(selected.contains c.code))

/-- Clicking a dropdown entry: `field.onChange([...field.value,
country.code])` appends the chosen country's code. -/
def selectCountry (selected : List String) (c : Country) : List String :=
  selected ++ [c.code]

/-! ## Helper lemmas -/

/-- Lemma: `find?` only depends on the predicate's values on the list. -/
theorem find?_congr_on {α : Type} (p q : α → Bool) :
    ∀ (l : List α), (∀ a ∈ l, p a = q a) → l.find? p = l.find? q
  | [], _ => rfl
  | a :: t, h => by
    rw [List.find?_cons, List.find?_cons, h a (List.mem_cons_self a t)]
    cases hq : q a with
    | true => rfl
    | false => exact find?_congr_on p q t (fun b hb => h b (List.mem_cons_of_mem a hb))

/-- Taking at least the whole length of a list yields the list itself. -/
theorem take_eq_of_length_le {α : Type} :
    ∀ (l : List α) (n : Nat), l.length ≤ n → l.take n = l
  | [], _, _ => by simp
  | _ :: _, 0, h => by simp at h
  | a :: t, n + 1, h => by
    simp only [List.take_succ_cons]
    rw [take_eq_of_length_le t n (by simpa using h)]

/-- Erasing one index from a list of length at least two leaves at least one
element. -/
theorem one_le_length_eraseIdx {α : Type} :
    ∀ (l : List α) (i : Nat), 2 ≤ l.length → 1 ≤ (l.eraseIdx i).length
  | [], _, h => by simp at h
  | _ :: t, 0, h => by
    simp only [List.eraseIdx]
    simp only [List.length_cons] at h
    omega
  | a :: t, i + 1, _ => by simp [List.eraseIdx]

/-- Setting a header makes it present with the written value. -/
theorem getHeader_setHeader (hs : List (String × String)) (k v : String) :
    getHeader (setHeader hs k v) k = some v := by
  have hnone : (hs.filter (fun h => !(h.1 == k))).find? (fun h => h.1 == k) = none := by
    rw [List.find?_eq_none]
    intro x hx
    have hq := List.of_mem_filter hx
    simpa using hq
  simp [getHeader, setHeader, List.find?_append, hnone]

/-- A step function preserving a predicate preserves it along `foldl`. -/
theorem foldl_preserves {σ ε : Type} (step : σ → ε → σ) (P : σ → Prop)
    (h : ∀ s e, P s → P (step s e)) :
    ∀ (l : List ε) (s : σ), P s → P (l.foldl step s)
  | [], _, hs => hs
  | e :: t, s, hs => foldl_preserves step P h t (step s e) (h s e hs)

/-- A step function preserving a predicate for admissible events preserves
it along `foldl` over a list of admissible events. -/
theorem foldl_preserves_of_ok {σ ε : Type} (step : σ → ε → σ) (P : σ → Prop)
    (Q : ε → Prop) (h : ∀ s e, Q e → P s → P (step s e)) :
    ∀ (l : List ε), (∀ e ∈ l, Q e) → ∀ (s : σ), P s → P (l.foldl step s)
  | [], _, _, hs => hs
  | e :: t, hl, s, hs =>
    foldl_preserves_of_ok step P Q h t
      (fun x hx => hl x (List.mem_cons_of_mem e hx)) (step s e)
      (h s e (hl e (List.mem_cons_self e t)) hs)


/-! ## Claim theorems -/

/-- C1: For every summary record mapping country codes to counts, the
dashboard's `transformDataForChart` returns exactly one entry per key of the
record (a permutation of the mapped entries), with each entry's `country`
field set by `getCountryName` — which returns the display name of a fetched
country whose code matches the key case-insensitively after trimming the
key, and falls back to the raw code when no fetched country matches — and
the entries sorted in non-increasing order of `count`; for an undefined
input record it returns the empty list. -/
theorem C1_transformDataForChart_spec (countries : List Country)
    (entries : List (String × Int)) :
    SummaryPage.transformDataForChart countries none = []
    ∧ (SummaryPage.transformDataForChart countries (some entries)).Perm
        (entries.map (SummaryPage.chartEntryOf countries))
    ∧ List.Sorted SummaryPage.countGe
        (SummaryPage.transformDataForChart countries (some entries))
    ∧ (∀ code, (∃ c ∈ countries, jsToUpper c.code = jsToUpper (jsTrim code)) →
        ∃ c ∈ countries, jsToUpper c.code = jsToUpper (jsTrim code)
          ∧ SummaryPage.getCountryName countries code = c.name)
    ∧ (∀ code, (∀ c ∈ countries, jsToUpper c.code ≠ jsToUpper (jsTrim code)) →
        SummaryPage.getCountryName countries code = code) := by
  refine ⟨rfl, List.perm_insertionSort _ _, List.sorted_insertionSort _ _, ?_, ?_⟩
  · intro code hex
    have hsome :
        (countries.find? (fun c => jsToUpper c.code == jsToUpper (jsTrim code))).isSome := by
      rw [List.find?_isSome]
      obtain ⟨c, hc, he⟩ := hex
      exact ⟨c, hc, by simpa using he⟩
    obtain ⟨c, hfind⟩ := Option.isSome_iff_exists.mp hsome
    refine ⟨c, List.mem_of_find?_eq_some hfind, ?_, ?_⟩
    · have hp := List.find?_some hfind
      simpa using hp
    · simp [SummaryPage.getCountryName, hfind]
  · intro code hall
    have hnone :
        countries.find? (fun c => jsToUpper c.code == jsToUpper (jsTrim code)) = none := by
      rw [List.find?_eq_none]
      intro c hc
      simpa using hall c hc
    simp [SummaryPage.getCountryName, hnone]

/-- Witness for C1 at a concrete input: `"XX"` matches no fetched country,
so the lookup falls back to the raw code. -/
theorem C1_transformDataForChart_witness :
    SummaryPage.getCountryName [{ code := "CO", name := "Colombia", region := "South America" }] "XX"
      = "XX" :=
  (C1_transformDataForChart_spec
    [{ code := "CO", name := "Colombia", region := "South America" }] []).2.2.2.2 "XX" (by decide)

/-- C8 counterexample: with the single fetched country `{ code: "co", name:
"Colombia" }` and input code `"CO"`, the providers-list lookup (which never
uppercases the stored code) returns `"CO"` while the summary lookup returns
`"Colombia"`; the two lookups therefore disagree. -/
theorem C8_counterexample :
    ProvidersPage.getCountryName [{ code := "co", name := "Colombia", region := "South America" }] "CO" = "CO"
    ∧ SummaryPage.getCountryName [{ code := "co", name := "Colombia", region := "South America" }] "CO" = "Colombia"
    ∧ (ProvidersPage.getCountryName [{ code := "co", name := "Colombia", region := "South America" }] "CO"
        == SummaryPage.getCountryName [{ code := "co", name := "Colombia", region := "South America" }] "CO") = false := by
  decide

/-- C8 amended: the two country-name lookups agree whenever the input code
is already trimmed and uppercase and every fetched country's stored code is
uppercase; in general they differ, because the providers-list lookup
compares the normalized input strictly against the stored code and falls
back to the normalized code, while the summary lookup compares
case-insensitively and falls back to the raw input. -/
theorem C8_lookups_agree (countries : List Country) (code : String)
    (htrim : jsTrim code = code) (hupper : jsToUpper code = code)
    (hstored : ∀ c ∈ countries, jsToUpper c.code = c.code) :
    ProvidersPage.getCountryName countries code
      = SummaryPage.getCountryName countries code := by
  have h1 : jsTrim (jsToUpper code) = code := by rw [hupper, htrim]
  have h2 : jsToUpper (jsTrim code) = code := by rw [htrim, hupper]
  have hfind :
      countries.find? (fun c => c.code == code)
        = countries.find? (fun c => jsToUpper c.code == code) := by
    apply find?_congr_on
    intro c hc
    rw [hstored c hc]
  simp only [ProvidersPage.getCountryName, SummaryPage.getCountryName, h1, h2, hfind]

/-- Witness for C8 amended at a concrete input: both lookups return
`"Colombia"` for the code `"CO"` against an uppercase-coded country list. -/
theorem C8_lookups_agree_witness :
    ProvidersPage.getCountryName [{ code := "CO", name := "Colombia", region := "South America" }] "CO"
      = SummaryPage.getCountryName [{ code := "CO", name := "Colombia", region := "South America" }] "CO" :=
  C8_lookups_agree [{ code := "CO", name := "Colombia", region := "South America" }] "CO"
    (by decide) (by decide) (by decide)

/-- C2 counterexample: the edit form's submit handler surfaces
`error.response?.data?.message || 'Failed to update provider'`, so the
message shown for a failed update DOES depend on the error's content — two
errors differing only in their server message produce different surfaced
strings. -/
theorem C2_counterexample :
    EditProviderPage.submitErrorMessage
        { status := some 500, serverMessage := some "Email already exists" }
      = "Email already exists"
    ∧ EditProviderPage.submitErrorMessage
        { status := some 500, serverMessage := none }
      = "Failed to update provider"
    ∧ (EditProviderPage.submitErrorMessage
          { status := some 500, serverMessage := some "Email already exists" }
        == EditProviderPage.submitErrorMessage
          { status := some 500, serverMessage := none }) = false := by
  decide

/-- C2 amended: every network error is caught at its call site and logged.
The summary fetch, the edit page's provider fetch, and the new page's
countries fetch surface fixed generic messages independent of the error;
the providers list page's fetch handlers surface nothing; the two submit
handlers surface the server-provided message when present and non-empty and
otherwise a generic fallback. No retry occurs; the one recovery action is
the shared response interceptor, which on a 401 removes the stored token
and redirects to the login page, and otherwise does nothing. -/
theorem C2_error_handling (e : JsError) (m : String) :
    (∀ e' : JsError, SummaryPage.fetchErrorMessage e = SummaryPage.fetchErrorMessage e')
    ∧ (∀ e' : JsError, EditProviderPage.fetchErrorMessage e = EditProviderPage.fetchErrorMessage e')
    ∧ (∀ e' : JsError, NewProviderPage.fetchCountriesErrorMessage e
        = NewProviderPage.fetchCountriesErrorMessage e')
    ∧ ProvidersPage.fetchErrorSurfaced e = none
    ∧ (e.serverMessage = some m → m ≠ "" → EditProviderPage.submitErrorMessage e = m)
    ∧ (e.serverMessage = none →
        EditProviderPage.submitErrorMessage e = "Failed to update provider")
    ∧ (e.serverMessage = some "" →
        EditProviderPage.submitErrorMessage e = "Failed to update provider")
    ∧ (e.serverMessage = some m → m ≠ "" → NewProviderPage.submitErrorMessage e = m)
    ∧ (e.serverMessage = none →
        NewProviderPage.submitErrorMessage e = "Failed to create provider")
    ∧ (e.status = some 401 →
        responseErrorInterceptor e = { tokenRemoved := true, redirectedTo := some "/login" })
    ∧ (e.status ≠ some 401 →
        responseErrorInterceptor e = { tokenRemoved := false, redirectedTo := none }) := by
  refine ⟨fun _ => rfl, fun _ => rfl, fun _ => rfl, rfl, ?_, ?_, ?_, ?_, ?_, ?_, ?_⟩
  · intro hm hne
    simp [EditProviderPage.submitErrorMessage, jsOrString, hm, hne]
  · intro hm
    simp [EditProviderPage.submitErrorMessage, jsOrString, hm]
  · intro hm
    simp [EditProviderPage.submitErrorMessage, jsOrString, hm]
  · intro hm hne
    simp [NewProviderPage.submitErrorMessage, jsOrString, hm, hne]
  · intro hm
    simp [NewProviderPage.submitErrorMessage, jsOrString, hm]
  · intro hs
    simp [responseErrorInterceptor, hs]
  · intro hs
    simp [responseErrorInterceptor, hs]

/-- Witness for C2 amended at a concrete error carrying a server message:
the surfaced update-failure message is the server's message. -/
theorem C2_error_handling_witness :
    EditProviderPage.submitErrorMessage
        { status := some 409, serverMessage := some "NIT must be unique" }
      = "NIT must be unique" :=
  (C2_error_handling { status := some 409, serverMessage := some "NIT must be unique" }
    "NIT must be unique").2.2.2.2.1 rfl (by decide)

/-- C3 counterexample: the providers list page's effect calls
`fetchCountries()` and then `fetchProviders()` without awaiting either, so
after its two synchronous request starts TWO requests initiated by the same
page-load action are outstanding at once — the `/Provider` request is issued
before the `/Country` request has completed. -/
theorem C3_counterexample :
    outstandingAt providersEffectTrace 2 = 2
    ∧ decide (outstandingAt providersEffectTrace 2 ≤ 1) = false := by
  decide

/-- C3 amended: the summary page load issues its two requests strictly
sequentially — at most one is outstanding at every point of its trace — but
the providers list page-load (and page-change) effect starts its `/Country`
and `/Provider` requests before either completes, reaching two outstanding
requests; two is also the bound over its whole trace. -/
theorem C3_outstanding_requests :
    (∀ n, outstandingAt summaryFetchDataTrace n ≤ 1)
    ∧ (∀ n, outstandingAt providersEffectTrace n ≤ 2)
    ∧ outstandingAt providersEffectTrace 2 = 2 := by
  refine ⟨?_, ?_, by decide⟩
  · intro n
    match n with
    | 0 => decide
    | 1 => decide
    | 2 => decide
    | 3 => decide
    | n + 4 =>
      rw [outstandingAt,
        take_eq_of_length_le summaryFetchDataTrace (n + 4) (by simp [summaryFetchDataTrace])]
      decide
  · intro n
    match n with
    | 0 => decide
    | 1 => decide
    | 2 => decide
    | 3 => decide
    | n + 4 =>
      rw [outstandingAt,
        take_eq_of_length_le providersEffectTrace (n + 4) (by simp [providersEffectTrace])]
      decide

/-- The storage state the C4 counterexample runs against: `auth_token` is
present but holds the empty string. -/
def emptyTokenStore : Storage :=
  fun k => if k == "auth_token" then some "" else none

/-- A storage state holding a non-empty token, for witnesses. -/
def secretTokenStore : Storage :=
  fun k => if k == "auth_token" then some "secret" else none

/-- C4 counterexample: browser storage CAN contain a value under
`auth_token` — the empty string — for which the request interceptor
attaches no `Authorization` header, because JavaScript `if (token)` treats
the empty string as falsy; the claim's "if storage contains a value, the
header is carried" is therefore false at this input. -/
theorem C4_counterexample :
    emptyTokenStore "auth_token" = some ""
    ∧ requestInterceptor emptyTokenStore [] = []
    ∧ getHeader (requestInterceptor emptyTokenStore []) "Authorization" = none := by
  decide

/-- C4 amended: if storage holds a NON-EMPTY value `t` under `auth_token`,
the request carries `Authorization: Bearer t`; if no value — or the empty
string, which `if (token)` treats as falsy — is stored, the interceptor
leaves the headers unchanged. -/
theorem C4_request_interceptor (store : Storage) (headers : List (String × String))
    (t : String) :
    (store "auth_token" = some t → t ≠ "" →
      requestInterceptor store headers = setHeader headers "Authorization" ("Bearer " ++ t)
      ∧ getHeader (requestInterceptor store headers) "Authorization"
          = some ("Bearer " ++ t))
    ∧ (store "auth_token" = none → requestInterceptor store headers = headers)
    ∧ (store "auth_token" = some "" → requestInterceptor store headers = headers) := by
  refine ⟨?_, ?_, ?_⟩
  · intro ht hne
    have h : requestInterceptor store headers
        = setHeader headers "Authorization" ("Bearer " ++ t) := by
      simp [requestInterceptor, ht, hne]
    exact ⟨h, by rw [h]; exact getHeader_setHeader headers "Authorization" ("Bearer " ++ t)⟩
  · intro ht
    simp [requestInterceptor, ht]
  · intro ht
    simp [requestInterceptor, ht]

/-- Witness for C4 amended: with `auth_token = "secret"` stored, the
interceptor sets the bearer header. -/
theorem C4_request_interceptor_witness :
    requestInterceptor secretTokenStore []
      = setHeader [] "Authorization" ("Bearer " ++ "secret") :=
  ((C4_request_interceptor secretTokenStore [] "secret").1 (by decide) (by decide)).1

/-- C5 counterexample: the create operation posts to
`/Provider/with-details` and the update operation puts to `/Provider/{id}`;
neither uses the `/Provider` path, contradicting the claim that `/Provider`
serves list, create, AND update. -/
theorem C5_counterexample :
    createProviderRequest = { method := Method.post, path := "/Provider/with-details" }
    ∧ (createProviderRequest.path == "/Provider") = false
    ∧ updateProviderRequest "42" = { method := Method.put, path := "/Provider/42" }
    ∧ ((updateProviderRequest "42").path == "/Provider") = false := by
  decide

/-- C5 amended: the set of backend paths the frontend requests is exactly
`/Auth/login`, `/Provider`, `/Provider/{id}`, `/Provider/with-details`,
`/Country`, `/Summary`; `/Provider` is used ONLY for the paginated list,
create goes to `/Provider/with-details` (POST) and update to
`/Provider/{id}` (PUT). -/
theorem C5_request_paths (id : String) :
    (∀ r ∈ frontendRequests id,
      r.path ∈ ["/Auth/login", "/Provider", "/Provider/" ++ id,
        "/Provider/with-details", "/Country", "/Summary"])
    ∧ (∀ p ∈ ["/Auth/login", "/Provider", "/Provider/" ++ id,
        "/Provider/with-details", "/Country", "/Summary"],
      ∃ r ∈ frontendRequests id, r.path = p)
    ∧ (∀ r ∈ frontendRequests id, r.path = "/Provider" → r = providerListRequest)
    ∧ providerListRequest = { method := Method.get, path := "/Provider" }
    ∧ createProviderRequest = { method := Method.post, path := "/Provider/with-details" }
    ∧ updateProviderRequest id = { method := Method.put, path := "/Provider/" ++ id } := by
  have hlen : ∀ s : String, ("/Provider/" ++ s) ≠ "/Provider" := by
    intro s h
    have h1 : ("/Provider/" ++ s).length = ("/Provider" : String).length :=
      congrArg String.length h
    rw [String.length_append] at h1
    have h2 : ("/Provider/" : String).length = 10 := rfl
    have h3 : ("/Provider" : String).length = 9 := rfl
    omega
  refine ⟨?_, ?_, ?_, rfl, rfl, rfl⟩
  · intro r hr
    simp only [frontendRequests, loginRequest, providerListRequest, countriesRequest,
      summaryRequest, getProviderRequest, updateProviderRequest, createProviderRequest,
      List.mem_cons, List.not_mem_nil, or_false] at hr
    rcases hr with h | h | h | h | h | h | h <;> subst h <;> simp
  · intro p hp
    simp only [List.mem_cons, List.not_mem_nil, or_false] at hp
    rcases hp with h | h | h | h | h | h <;> subst h
    · exact ⟨loginRequest, by simp [frontendRequests], rfl⟩
    · exact ⟨providerListRequest, by simp [frontendRequests], rfl⟩
    · exact ⟨getProviderRequest id, by simp [frontendRequests], rfl⟩
    · exact ⟨createProviderRequest, by simp [frontendRequests], rfl⟩
    · exact ⟨countriesRequest, by simp [frontendRequests], rfl⟩
    · exact ⟨summaryRequest, by simp [frontendRequests], rfl⟩
  · intro r hr hpath
    simp only [frontendRequests, List.mem_cons, List.not_mem_nil, or_false] at hr
    rcases hr with h | h | h | h | h | h | h <;> subst h
    · exact absurd hpath (by decide)
    · rfl
    · exact absurd hpath (by decide)
    · exact absurd hpath (by decide)
    · exact absurd hpath (hlen id)
    · exact absurd hpath (hlen id)
    · exact absurd hpath (by decide)

/-- Witness for C5 amended at a concrete id: the update request for
provider `"7"` is a PUT to `/Provider/7`. -/
theorem C5_request_paths_witness :
    updateProviderRequest "7" = { method := Method.put, path := "/Provider/" ++ "7" } :=
  (C5_request_paths "7").2.2.2.2.2

/-- C6: every browser-storage call site in the repository (all five are in
`lib/api.ts`: the request interceptor's read, the 401 handler's remove,
`login`'s write of the received token, `logout`'s remove, and
`isAuthenticated`'s read) touches only the key `auth_token`; no operation
writes domain entity data to durable storage, which lives only in transient
component state. -/
theorem C6_storage_only_auth_token : ∀ op ∈ storageOps, op.key = "auth_token" := by
  decide

/-- Witness for C6 at a concrete call site: `authService.login`'s write
targets the `auth_token` key. -/
theorem C6_storage_only_auth_token_witness :
    ({ kind := StorageOpKind.write, key := "auth_token",
        site := "authService.login (api.ts:43)" } : StorageOp).key = "auth_token" :=
  C6_storage_only_auth_token _ (by decide)

/-- C7: every provider-list request carries `pageNumber` equal to the
current page and `pageSize` equal to 2; clicking Next refetches with a page
number exactly one greater and Previous exactly one less than the current
page; and the Next and Previous buttons are disabled exactly when the last
response's `hasNextPage`, respectively `hasPreviousPage`, is false. -/
theorem C7_pagination (page : Int) (pd : PaginatedResponse Provider) :
    ProvidersPage.fetchProvidersParams page = [("pageNumber", page), ("pageSize", 2)]
    ∧ ProvidersPage.fetchProvidersParams (ProvidersPage.clickNext page)
        = [("pageNumber", page + 1), ("pageSize", 2)]
    ∧ ProvidersPage.fetchProvidersParams (ProvidersPage.clickPrevious page)
        = [("pageNumber", page - 1), ("pageSize", 2)]
    ∧ (ProvidersPage.nextDisabled pd = true ↔ pd.hasNextPage = false)
    ∧ (ProvidersPage.previousDisabled pd = true ↔ pd.hasPreviousPage = false) := by
  refine ⟨rfl, rfl, rfl, ?_, ?_⟩
  · simp [ProvidersPage.nextDisabled]
  · simp [ProvidersPage.previousDisabled]

/-- Witness for C7 at a concrete page: clicking Next on page 3 refetches
with `pageNumber = 4` and `pageSize = 2`. -/
theorem C7_pagination_witness :
    ProvidersPage.fetchProvidersParams (ProvidersPage.clickNext 3)
      = [("pageNumber", 3 + 1), ("pageSize", 2)] :=
  (C7_pagination 3
    { items := [], pageNumber := 1, totalPages := 1, totalCount := 0,
      hasPreviousPage := false, hasNextPage := false }).2.1

/-- One new-form step preserves the at-least-one-row property. -/
theorem stepNew_hasRows (st : ProviderFormState) (e : NewFormEvent)
    (h : hasRows st) : hasRows (stepNew st e) := by
  obtain ⟨h1, h2⟩ := h
  cases e with
  | addService =>
    exact ⟨by simp [stepNew], by simp [stepNew]; exact h2⟩
  | addAttribute =>
    exact ⟨by simp [stepNew]; exact h1, by simp [stepNew]⟩
  | removeService i =>
    simp only [stepNew]
    split
    · next hg => exact ⟨one_le_length_eraseIdx _ i (by omega), h2⟩
    · exact ⟨h1, h2⟩
  | removeAttribute i =>
    simp only [stepNew]
    split
    · next hg => exact ⟨h1, one_le_length_eraseIdx _ i (by omega)⟩
    · exact ⟨h1, h2⟩

/-- One edit-form step with an admissible reset payload preserves the
at-least-one-row property. -/
theorem stepEdit_hasRows (st : ProviderFormState) (e : EditFormEvent)
    (hok : resetPayloadOk e) (h : hasRows st) : hasRows (stepEdit st e) := by
  obtain ⟨h1, h2⟩ := h
  cases e with
  | addService =>
    exact ⟨by simp [stepEdit], by simp [stepEdit]; exact h2⟩
  | addAttribute =>
    exact ⟨by simp [stepEdit]; exact h1, by simp [stepEdit]⟩
  | removeService i =>
    simp only [stepEdit]
    split
    · next hg => exact ⟨one_le_length_eraseIdx _ i (by omega), h2⟩
    · exact ⟨h1, h2⟩
  | removeAttribute i =>
    simp only [stepEdit]
    split
    · next hg => exact ⟨h1, one_le_length_eraseIdx _ i (by omega)⟩
    · exact ⟨h1, h2⟩
  | resetFromProvider p =>
    obtain ⟨hp1, hp2⟩ := hok
    exact ⟨by simpa [stepEdit, formDataOfProvider] using hp1,
      by simpa [stepEdit, formDataOfProvider] using hp2⟩

/-- A provider with no services and no custom attributes, as the backend
may legitimately return one (the list page itself renders such providers). -/
def providerWithoutRows : Provider :=
  { id := "p1", nit := "900123", name := "Acme", email := "acme@example.com",
    createdAt := "2024-01-01T00:00:00", isDeleted := false, deletedAt := none,
    services := [], customAttributes := [] }

/-- C9 counterexample: on the edit form, loading a provider that has no
services and no custom attributes resets BOTH field arrays to empty — the
claimed at-least-one-row invariant does not hold at all times on the edit
form. -/
theorem C9_counterexample :
    (stepEdit initialFormState (.resetFromProvider providerWithoutRows)).services.length = 0
    ∧ (stepEdit initialFormState (.resetFromProvider providerWithoutRows)).attributes.length = 0
    ∧ decide (hasRows (stepEdit initialFormState (.resetFromProvider providerWithoutRows)))
        = false := by
  decide

/-- C9 amended: in both forms the initial state holds exactly one blank
service row and one blank attribute row, adding appends one row, and a
remove outside the `length > 1` guard is impossible (modelled as a no-op);
consequently the new-provider form's arrays hold at least one row at all
times, and the edit form's arrays do so provided every `reset` loads a
provider with at least one service and one custom attribute — a reset from
a provider lacking either empties the corresponding array. -/
theorem C9_form_array_invariant (evs : List NewFormEvent) (evs' : List EditFormEvent) :
    initialFormState.services = [blankService]
    ∧ initialFormState.attributes = [blankAttribute]
    ∧ (∀ st : ProviderFormState,
        (stepNew st .addService).services = st.services ++ [blankService]
        ∧ (stepNew st .addAttribute).attributes = st.attributes ++ [blankAttribute]
        ∧ (stepEdit st .addService).services = st.services ++ [blankService]
        ∧ (stepEdit st .addAttribute).attributes = st.attributes ++ [blankAttribute])
    ∧ (∀ st : ProviderFormState, ∀ i, ¬ 1 < st.services.length →
        stepNew st (.removeService i) = st ∧ stepEdit st (.removeService i) = st)
    ∧ (∀ st : ProviderFormState, ∀ i, ¬ 1 < st.attributes.length →
        stepNew st (.removeAttribute i) = st ∧ stepEdit st (.removeAttribute i) = st)
    ∧ hasRows (evs.foldl stepNew initialFormState)
    ∧ ((∀ e ∈ evs', resetPayloadOk e) → hasRows (evs'.foldl stepEdit initialFormState)) := by
  refine ⟨rfl, rfl, fun st => ⟨rfl, rfl, rfl, rfl⟩, ?_, ?_, ?_, ?_⟩
  · intro st i hg
    exact ⟨by simp [stepNew, hg], by simp [stepEdit, hg]⟩
  · intro st i hg
    exact ⟨by simp [stepNew, hg], by simp [stepEdit, hg]⟩
  · exact foldl_preserves stepNew hasRows stepNew_hasRows evs initialFormState (by decide)
  · intro hok
    exact foldl_preserves_of_ok stepEdit hasRows resetPayloadOk stepEdit_hasRows
      evs' hok initialFormState (by decide)

/-- A sample fetched service, for the C9 witness. -/
def sampleService : Service :=
  { id := "s1", providerId := "p2", name := "Consulting", hourlyRate := 120,
    isDeleted := false, deletedAt := none, createdAt := "2024-02-02T00:00:00",
    countries := [{ id := "sc1", serviceId := "s1", countryCode := "CO" }] }

/-- A sample fetched custom attribute, for the C9 witness. -/
def sampleAttribute : CustomAttribute :=
  { id := "a1", providerId := "p2", key := "tier", value := "gold",
    isDeleted := false, deletedAt := none, createdAt := "2024-02-02T00:00:00" }

/-- A provider with one service and one custom attribute, for the C9
witness. -/
def providerWithRows : Provider :=
  { id := "p2", nit := "900456", name := "Globex", email := "ops@globex.example",
    createdAt := "2024-02-02T00:00:00", isDeleted := false, deletedAt := none,
    services := [sampleService], customAttributes := [sampleAttribute] }

/-- Witness for C9 amended: after the edit form resets from a provider that
has one service and one attribute, both arrays still hold a row. -/
theorem C9_form_array_invariant_witness :
    hasRows ([EditFormEvent.resetFromProvider providerWithRows].foldl stepEdit initialFormState) :=
  (C9_form_array_invariant [] [EditFormEvent.resetFromProvider providerWithRows]).2.2.2.2.2.2
    (by decide)

/-- C10: in the country picker of both provider forms, a country whose code
is already in the service's selected `countryCodes` list is never offered in
the dropdown, and selecting an offered country preserves the invariant that
the selection contains no duplicate codes. -/
theorem C10_dropdown_no_duplicates (countries : List Country) (term : String)
    (selected : List String) (c : Country) :
    (c.code ∈ selected → c ∉ offeredCountries countries term selected)
    ∧ (c ∈ offeredCountries countries term selected → selected.Nodup →
        (selectCountry selected c).Nodup) := by
  have hmem : c ∈ offeredCountries countries term selected → c.code ∉ selected := by
    intro hc
    simp only [offeredCountries] at hc
    have hq := List.of_mem_filter hc
    simpa using hq
  constructor
  · intro hsel hoff
    exact hmem hoff hsel
  · intro hc hnd
    have hns := hmem hc
    simp [selectCountry, List.nodup_append, hnd, hns]

/-- Witness for C10: with `"CO"` already selected, choosing the offered
country `"BR"` yields the duplicate-free selection `["CO", "BR"]`. -/
theorem C10_dropdown_no_duplicates_witness :
    List.Nodup (selectCountry ["CO"] { code := "BR", name := "Brazil", region := "South America" }) :=
  (C10_dropdown_no_duplicates
      [{ code := "CO", name := "Colombia", region := "South America" },
        { code := "BR", name := "Brazil", region := "South America" }]
      "" ["CO"] { code := "BR", name := "Brazil", region := "South America" }).2
    (by decide) (by decide)
